import Mathlib

/-!
Verification development for the instaclone caching engine
(src/instaclone/instaclone.py).

The development shallowly embeds the path-derivation functions, the
version resolver, the cache store and the installer of the source file.
Pure string functions are translated directly; the stateful
publish/install/setup protocols are translated into explicit state
passing over a filesystem model, with the external transport, archive
and hashing commands abstracted as oracles (a `World` structure), as the
specification treats them as opaque collaborators.

The repository modules `configs.py` and `utils.py` are not part of the
provided sources; the few helpers from them that matter here are
modelled from the spec and marked as such in their doc comments.
-/

/-! ## Path layer: a model of the POSIX `os.path` functions used by the source -/

/-- Python `b.startswith("/")`, the absolute-path test inside `posixpath.join`. -/
def headIsSlash (s : String) : Prop :=
  s.data.head? = some '/'

instance (s : String) : Decidable (headIsSlash s) := by
  unfold headIsSlash; infer_instance

/-- Python `p.endswith("/")` as used inside `posixpath.join`. -/
def lastIsSlash (s : String) : Prop :=
  s.data.getLast? = some '/'

instance (s : String) : Decidable (lastIsSlash s) := by
  unfold lastIsSlash; infer_instance

/-- One step of Python `os.path.join` (posixpath): an absolute second
component resets the path; otherwise the components are joined, adding a
separator unless the accumulator is empty or already ends with one. -/
def joinTwo (p b : String) : String :=
  if headIsSlash b then b
  else if p = "" ∨ lastIsSlash p then p ++ b
  else p ++ "/" ++ b

/-- Python `os.path.join(a, *rest)` (posixpath semantics). -/
def pyJoin (a : String) (rest : List String) : String :=
  rest.foldl joinTwo a

/-- Python `os.path.basename`: the suffix of the path after the last
slash (computed by taking the longest slash-free suffix). -/
def pyBasename (p : String) : String :=
  String.mk ((p.data.reverse.takeWhile fun c => c ≠ '/').reverse)

/-- Python `s.rstrip("/")`, used by `FileCache.__init__` on the root path. -/
def rstripSlash (s : String) : String :=
  String.mk ((s.data.reverse.dropWhile fun c => c = '/').reverse)

/-- Character class of the regex `[a-zA-Z0-9_.-]` used by
`FileCache.pathify_remote_loc`. -/
def tokenChar (c : Char) : Bool :=
  c.isAlpha || c.isDigit || c = '_' || c = '.' || c = '-'

/-- Step function for `findTokens`: accumulate maximal runs of `tokenChar`. -/
def findTokensStep (acc : List String × String) (c : Char) : List String × String :=
  if tokenChar c then (acc.1, acc.2.push c)
  else if acc.2 = "" then (acc.1, "")
  else (acc.1 ++ [acc.2], "")

/-- Python `re.findall("[a-zA-Z0-9_.-]+", s)`: the maximal runs of
token characters in `s`, in order. -/
def findTokens (s : String) : List String :=
  let r := s.data.foldl findTokensStep ([], "")
  if r.2 = "" then r.1 else r.1 ++ [r.2]

/-! ## Item descriptors (the `config` objects of `configs.py`) -/

/-- Copy strategies, from `configs.CopyType` (`configs.py` is outside the
provided sources; the spec lists exactly `symlink | hardlink | copy`). -/
inductive CopyType where
  | symlink
  | hardlink
  | copy
deriving DecidableEq

/-- Item descriptor, with the fields of the source `config` objects that
`instaclone.py` reads.  The field called `remote_prefix` in the source is
named `remote_prefix_loc` here.  The version-determination fields are
`Option String`, with `none` for a Python `None`; Python truthiness also
treats an empty string as absent. -/
structure Config where
  local_path : String
  remote_prefix_loc : String
  remote_path : String
  copy_type : CopyType
  upload_command : String
  download_command : String
  version : Option String
  version_hashable : Option String
  version_command : Option String

/-- Python truthiness on an optional string field. -/
def truthy : Option String → Bool
  | none => false
  | some s => s != ""

/-! ## FileCache path derivation (lines 144-198 of instaclone.py) -/

/-- Source constant `VERSION_SEP = ".$"`. -/
def VERSION_SEP : String := ".$"

/-- Source constant `VERSION_END = "$"`. -/
def VERSION_END : String := "$"

/-- Source constant `ARCHIVE_SUFFIX = ".zip"`. -/
def ARCHIVE_SUFFIX : String := ".zip"

/-- Path fields of a `FileCache` object (the mutable `setup_done` flag
lives in the operational state `St` below). -/
structure FileCache where
  root_path : String
  contents_path : String
  version_path : String

/-- Source class attribute `FileCache.version = "1"` (the cache schema
version written to the marker file). -/
def FileCache.version : String := "1"

/-- Model of `FileCache.__init__`: `root_path` is right-stripped of
slashes, while `contents_path` and `version_path` are joined from the
original argument, exactly as in the source. -/
def FileCache.init (root_path : String) : FileCache :=
  { root_path := rstripSlash root_path
    contents_path := joinTwo root_path "contents"
    version_path := joinTwo root_path "version" }

/-- Model of `FileCache.versioned_path` (source lines 181-185): joins the
descriptor `remote_path`, the segment `local_path + ".$" + version + "$"`
built from the full `local_path`, and `basename(local_path) + suffix`. -/
def FileCache.versioned_path (cfg : Config) (version suffix : String) : String :=
  pyJoin cfg.remote_path
    [cfg.local_path ++ VERSION_SEP ++ version ++ VERSION_END,
     pyBasename cfg.local_path ++ suffix]

/-- Model of `FileCache.pathify_remote_loc` (source lines 187-189):
`os.path.join(*re.findall("[a-zA-Z0-9_.-]+", remote_loc))`.  Note the
Python call raises `TypeError` when no token is found; that case is not
reached by any property below and is modelled as `""`. -/
def FileCache.pathify_remote_loc (remote_loc : String) : String :=
  match findTokens remote_loc with
  | [] => ""
  | t :: ts => pyJoin t ts

/-- Model of `FileCache.cache_path` (source lines 191-194). -/
def FileCache.cache_path (c : FileCache) (cfg : Config) (version suffix : String) : String :=
  pyJoin c.contents_path
    [FileCache.pathify_remote_loc cfg.remote_prefix_loc,
     FileCache.versioned_path cfg version suffix]

/-- Model of `FileCache.remote_loc` (source lines 196-198). -/
def FileCache.remote_loc (_c : FileCache) (cfg : Config) (version suffix : String) : String :=
  pyJoin cfg.remote_prefix_loc
    [FileCache.versioned_path cfg version suffix]

/-! ## Filesystem model

The filesystem is a map from path strings to entries.  Paths are the
exact strings the source passes to the `os` functions; an entry is a
regular file with contents, a directory, or a symbolic link. -/

/-- A filesystem entry. -/
inductive Entry where
  | file (content : String)
  | dir
  | symlink (target : String)
deriving DecidableEq

/-- A filesystem: a map from path strings to entries. -/
def FS : Type := String → Option Entry

/-- Python `os.path.exists`. -/
def pyExists (fs : FS) (p : String) : Bool :=
  (fs p).isSome

/-- Python `os.path.isdir`. -/
def pyIsDir (fs : FS) (p : String) : Bool :=
  match fs p with
  | some Entry.dir => true
  | _ => false

/-- Python `os.path.isfile`. -/
def pyIsFile (fs : FS) (p : String) : Bool :=
  match fs p with
  | some (Entry.file _) => true
  | _ => false

/-- Create or replace the entry at one path. -/
def FS.write (fs : FS) (p : String) (e : Entry) : FS :=
  fun q => if q = p then some e else fs q

/-- Python `os.unlink`: remove the entry at one path. -/
def FS.removeOne (fs : FS) (p : String) : FS :=
  fun q => if q = p then none else fs q

/-- Whether `q` is `p` itself or lies strictly below `p`. -/
def underPath (p q : String) : Bool :=
  q = p || (p ++ "/").isPrefixOf q

/-- Recursive removal of a path and everything below it; models
`shutil.rmtree` and (modelled from the spec) `utils.rmtree_or_file`,
which removes a file or a directory tree outright. -/
def FS.removeTree (fs : FS) (p : String) : FS :=
  fun q => if underPath p q then none else fs q

/-- Recursive copy of the entry at `src` (and everything below it) to
`dst`; models (from the spec) `utils.copytree_atomic`, a full atomic
recursive copy. -/
def FS.copyTree (fs : FS) (src dst : String) : FS :=
  fun q =>
    if q = dst then fs src
    else if (dst ++ "/").isPrefixOf q then fs (src ++ (q.drop dst.length))
    else fs q

/-- Move of a whole tree, as copy-then-remove. -/
def FS.moveTree (fs : FS) (src dst : String) : FS :=
  (fs.copyTree src dst).removeTree src

/-- Modelled from the spec: `utils.make_all_dirs` creates the directory
if it is missing (creation of intermediate parent directories is elided;
no property below observes them). -/
def FS.makeAllDirs (fs : FS) (p : String) : FS :=
  if pyExists fs p then fs else fs.write p Entry.dir

/-- Directory part of a path (the path up to the last slash, with the
separator run dropped); used only to model parent creation. -/
def pyDirname (p : String) : String :=
  let rev := p.data.reverse
  let rest := rev.dropWhile fun c => c ≠ '/'
  String.mk ((rest.dropWhile fun c => c = '/').reverse)

/-- Modelled from the spec: `utils.make_parent_dirs` creates the parent
directory of a target path. -/
def FS.makeParentDirs (fs : FS) (p : String) : FS :=
  fs.makeAllDirs (pyDirname p)

/-- Modelled from the spec: `utils.movefile` moves (not copies) a file,
creating parent directories of the destination. -/
def FS.moveFile (fs : FS) (src dst : String) : FS :=
  match fs src with
  | some e => (((fs.makeParentDirs dst).write dst e).removeOne src : FS)
  | none => fs

/-! ## Operational state, errors and outcomes -/

/-- External commands invoked during a run, in order: the transport
upload/download commands and the archive (zip) / unarchive (unzip)
commands, plus the backup move performed by `utils.move_to_backup`. -/
inductive Ev where
  | upload (remote : String)
  | download (remote : String)
  | zipCmd
  | unzipCmd
  | backup
deriving DecidableEq

/-- Operational state: the filesystem, the log of external commands
invoked so far, and the `FileCache.setup_done` flag of the cache object
in use. -/
structure St where
  fs : FS
  events : List Ev
  setup_done : Bool

/-- Python exceptions raised by the source: `AppError`, `ValueError`,
`AssertionError`, `subprocess.CalledProcessError` and
`configs.ConfigError`. -/
inductive PyErr where
  | appError (msg : String)
  | valueError (msg : String)
  | assertionError (msg : String)
  | calledProcessError
  | configError (msg : String)
deriving DecidableEq

/-- Result of running an operation: normal termination or a raised
exception; in both cases the state at that point is kept (Python
exceptions do not roll back filesystem effects). -/
inductive Outcome where
  | ok (s : St)
  | err (e : PyErr) (s : St)

/-- Sequencing: run the continuation unless an exception is propagating. -/
def andThen (r : Outcome) (f : St → Outcome) : Outcome :=
  match r with
  | Outcome.ok s => f s
  | Outcome.err e s => Outcome.err e s

/-- The state an outcome ends in. -/
def outState : Outcome → St
  | Outcome.ok s => s
  | Outcome.err _ s => s

/-- The exception an outcome ends with, if any. -/
def errOf : Outcome → Option PyErr
  | Outcome.ok _ => none
  | Outcome.err e _ => some e

/-- Whether an outcome is normal termination. -/
def isOk : Outcome → Bool
  | Outcome.ok _ => true
  | Outcome.err _ _ => false

/-- Append one external-command event to the log. -/
def logEv (s : St) (e : Ev) : St :=
  { s with events := s.events ++ [e] }

/-- Replace the filesystem component of the state. -/
def setFS (s : St) (fs : FS) : St :=
  { s with fs := fs }

/-- Oracles for the external collaborators: success and produced content
of the transport upload/download commands (keyed by remote location),
of the zip/unzip commands, of `utils.file_sha1` (modelled from the spec:
the hex content hash of the file at a path), and of the version-probe
command. -/
structure World where
  uploadOk : String → Bool
  downloadOk : String → Bool
  downloadContent : String → String
  zipOk : Bool
  zipContent : String → String
  unzipOk : Bool
  sha1 : String → String
  probeOk : String → Bool
  probeOutput : String → String

/-! ## Transport and archive operations (source lines 59-108) -/

/-- Model of `_upload_file` (source lines 59-63): run the upload command;
a non-zero exit raises `subprocess.CalledProcessError`.  The command
template and local path do not affect the modelled outcome. -/
def upload_file (w : World) (remote_loc : String) (s : St) : Outcome :=
  let s := logEv s (Ev.upload remote_loc)
  if w.uploadOk remote_loc then Outcome.ok s
  else Outcome.err PyErr.calledProcessError s

/-- Model of `_download_file` (source lines 66-71): the download runs
inside `utils.atomic_output_file`, so on success the target appears
(with parents created) and on failure nothing appears at the target. -/
def download_file (w : World) (remote_loc local_path : String) (s : St) : Outcome :=
  let s := logEv s (Ev.download remote_loc)
  if w.downloadOk remote_loc then
    Outcome.ok (setFS s ((s.fs.makeParentDirs local_path).write local_path
      (Entry.file (w.downloadContent remote_loc))))
  else Outcome.err PyErr.calledProcessError s

/-- The zip step of `_compress_dir`: run `zip` through
`utils.atomic_output_file`, so the archive appears only on success. -/
def compress_run (w : World) (local_dir archive_path : String) (s : St) : Outcome :=
  let s := logEv s Ev.zipCmd
  if w.zipOk then
    Outcome.ok (setFS s ((s.fs.makeParentDirs archive_path).write archive_path
      (Entry.file (w.zipContent local_dir))))
  else Outcome.err PyErr.calledProcessError s

/-- Model of `_compress_dir` (source lines 79-92): if the archive path
already exists it is deleted when `force` is set and otherwise the
operation fails with `AppError` before any other effect. -/
def compress_dir (w : World) (local_dir archive_path : String) (force : Bool) (s : St) : Outcome :=
  if pyExists s.fs archive_path then
    if force then compress_run w local_dir archive_path (setFS s (s.fs.removeOne archive_path))
    else Outcome.err (PyErr.appError ("archive already in cache (has version changed?): " ++ archive_path)) s
  else compress_run w local_dir archive_path s

/-- The unzip step of `_decompress_dir`: run `unzip` through
`utils.atomic_output_file`; on success the unarchived directory appears
at the target (its contents are opaque to the properties below). -/
def decompress_run (w : World) (_archive_path local_dir : String) (s : St) : Outcome :=
  let s := logEv s Ev.unzipCmd
  if w.unzipOk then
    Outcome.ok (setFS s (s.fs.write local_dir Entry.dir))
  else Outcome.err PyErr.calledProcessError s

/-- Model of `_decompress_dir` (source lines 95-108): an existing target
directory is removed when `force` is set, otherwise the operation fails
with `AppError` before any other effect. -/
def decompress_dir (w : World) (archive_path local_dir : String) (force : Bool) (s : St) : Outcome :=
  if pyExists s.fs local_dir then
    if force then decompress_run w archive_path local_dir (setFS s (s.fs.removeTree local_dir))
    else Outcome.err (PyErr.appError ("target already exists: " ++ local_dir)) s
  else decompress_run w archive_path local_dir s

/-! ## Installer (source lines 111-141) -/

/-- Modelled from the spec: `utils.move_to_backup` moves the existing
target tree to a distinct backup location instead of deleting it.  The
backup location is modelled as the target path with a `.bak` suffix, and
the move is recorded in the event log. -/
def move_to_backup (target : String) (s : St) : St :=
  { fs := s.fs.moveTree target (target ++ ".bak")
    events := s.events ++ [Ev.backup]
    setup_done := s.setup_done }

/-- Model of the inner `checked_remove` of `_install_from_cache` (source
lines 117-125): an existing target is backed up or removed when `force`
is set and otherwise raises `AppError`. -/
def checked_remove (target_path : String) (force make_backup : Bool) (s : St) : Outcome :=
  if pyExists s.fs target_path then
    if force then
      if make_backup then Outcome.ok (move_to_backup target_path s)
      else Outcome.ok (setFS s (s.fs.removeTree target_path))
    else Outcome.err (PyErr.appError ("target already exists: " ++ target_path)) s
  else Outcome.ok s

/-- Model of `_install_from_cache` (source lines 111-141).  The source
raises `AssertionError` when the cached path is missing; for the
hardlink strategy it checks `os.path.isdir` on the cached path and
raises `AppError` (source message "can't hardlink a directory", written
here without the apostrophe) before `checked_remove` runs. -/
def install_from_cache (cache_path target_path : String) (copy_type : CopyType)
    (force make_backup : Bool) (s : St) : Outcome :=
  if pyExists s.fs cache_path then
    match copy_type with
    | CopyType.symlink =>
        andThen (checked_remove target_path force make_backup s) fun s2 =>
          Outcome.ok (setFS s2 (s2.fs.write target_path (Entry.symlink cache_path)))
    | CopyType.hardlink =>
        if pyIsDir s.fs cache_path then
          Outcome.err (PyErr.appError ("cannot hardlink a directory: " ++ cache_path)) s
        else
          andThen (checked_remove target_path force make_backup s) fun s2 =>
            Outcome.ok (setFS s2 (s2.fs.write target_path ((s2.fs cache_path).getD (Entry.file ""))))
    | CopyType.copy =>
        andThen (checked_remove target_path force make_backup s) fun s2 =>
          Outcome.ok (setFS s2 (s2.fs.copyTree cache_path target_path))
  else Outcome.err (PyErr.assertionError ("cached file missing: " ++ cache_path)) s

/-! ## Cache store protocols (source lines 157-273) -/

/-- Model of `FileCache.setup` (source lines 164-173): lazy, one-time
initialization; if the version marker file exists the root is accepted
as-is, otherwise the contents directory and the marker file (holding the
schema version and a newline, via `utils.write_string_to_file`, modelled
from the spec as an atomic file write) are created. -/
def FileCache.setup (c : FileCache) (s : St) : Outcome :=
  if s.setup_done then Outcome.ok s
  else if pyExists s.fs c.version_path then
    Outcome.ok { s with setup_done := true }
  else
    Outcome.ok
      { fs := (s.fs.makeAllDirs c.contents_path).write c.version_path
          (Entry.file (FileCache.version ++ "\n"))
        events := s.events
        setup_done := true }

/-- The directory branch of `FileCache.publish` after `_compress_dir`
(source lines 218-222): upload the archive, unarchive it back into the
cache entry, and install the cache entry back over the local path with
`force=True, make_backup=True`. -/
def publishDirRest (w : World) (c : FileCache) (cfg : Config) (version : String)
    (force : Bool) (s : St) : Outcome :=
  andThen (upload_file w (FileCache.remote_loc c cfg version ARCHIVE_SUFFIX) s) fun s =>
  andThen (decompress_dir w (FileCache.cache_path c cfg version ARCHIVE_SUFFIX)
      (FileCache.cache_path c cfg version "") force s) fun s =>
  install_from_cache (FileCache.cache_path c cfg version "") cfg.local_path
    cfg.copy_type true true s

/-- Model of `FileCache.publish` (source lines 203-238). -/
def FileCache.publish (w : World) (c : FileCache) (cfg : Config) (version : String)
    (force : Bool) (s : St) : Outcome :=
  andThen (FileCache.setup c s) fun s =>
  if pyIsDir s.fs cfg.local_path then
    andThen (compress_dir w cfg.local_path
        (FileCache.cache_path c cfg version ARCHIVE_SUFFIX) force s) fun s2 =>
    publishDirRest w c cfg version force s2
  else if pyIsFile s.fs cfg.local_path then
    let s2 := setFS s (s.fs.moveFile cfg.local_path (FileCache.cache_path c cfg version ""))
    andThen (upload_file w (FileCache.remote_loc c cfg version "") s2) fun s3 =>
    install_from_cache (FileCache.cache_path c cfg version "") cfg.local_path
      cfg.copy_type false false s3
  else if pyExists s.fs cfg.local_path then
    Outcome.err (PyErr.valueError ("only files or directories supported: " ++ cfg.local_path)) s
  else
    Outcome.err (PyErr.valueError ("file not found: " ++ cfg.local_path)) s

/-- The body of `FileCache.install` after the initial `self.setup()`
call (source lines 243-268).  On a cache miss the archive variant is
downloaded first; only a `subprocess.CalledProcessError` from that probe
download is caught (reinterpreting the item as a plain file), any other
exception propagates. -/
def installBody (w : World) (c : FileCache) (cfg : Config) (version : String)
    (force : Bool) (s : St) : Outcome :=
  if pyExists s.fs (FileCache.cache_path c cfg version "") then
    install_from_cache (FileCache.cache_path c cfg version "") cfg.local_path
      cfg.copy_type force false s
  else
    match download_file w (FileCache.remote_loc c cfg version ARCHIVE_SUFFIX)
        (FileCache.cache_path c cfg version ARCHIVE_SUFFIX) s with
    | Outcome.ok s2 =>
        andThen (decompress_dir w (FileCache.cache_path c cfg version ARCHIVE_SUFFIX)
            (FileCache.cache_path c cfg version "") force s2) fun s3 =>
        install_from_cache (FileCache.cache_path c cfg version "") cfg.local_path
          cfg.copy_type force false s3
    | Outcome.err PyErr.calledProcessError s2 =>
        andThen (download_file w (FileCache.remote_loc c cfg version "")
            (FileCache.cache_path c cfg version "") s2) fun s3 =>
        install_from_cache (FileCache.cache_path c cfg version "") cfg.local_path
          cfg.copy_type force false s3
    | Outcome.err e s2 => Outcome.err e s2

/-- Model of `FileCache.install` (source lines 240-268): ensure the
cache root is set up, then run the install body. -/
def FileCache.install (w : World) (c : FileCache) (cfg : Config) (version : String)
    (force : Bool) (s : St) : Outcome :=
  andThen (FileCache.setup c s) (installBody w c cfg version force)

/-- Model of `FileCache.purge` (source lines 270-273): recursive delete
of the cache root. -/
def FileCache.purge (c : FileCache) (s : St) : Outcome :=
  Outcome.ok (setFS s (s.fs.removeTree c.root_path))

/-! ## Version resolver (source lines 276-294) -/

/-- Modelled from the spec: the character class of
`configs.CONFIG_VERSION_RE`, the restrictive pattern (word characters,
dots, dashes) a probe command output must match. -/
def versionTokenChar (c : Char) : Bool :=
  c.isAlphanum || c = '_' || c = '.' || c = '-'

/-- Modelled from the spec: validity of a version-probe output under
`configs.CONFIG_VERSION_RE` (a non-empty run of word characters, dots
and dashes). -/
def versionOutputOk (s : String) : Bool :=
  s != "" && s.data.all versionTokenChar

/-- Model of `version_for` (source lines 276-294): concatenate, in fixed
order, the explicit version literal, the content hash of the hashable
file, and the stripped probe-command output, skipping fields that are
absent or empty (Python truthiness), joined with "-".  A probe output
failing the pattern raises `ConfigError` (source message includes quote
characters that are omitted here); a failing probe command raises
`subprocess.CalledProcessError`. -/
def version_for (w : World) (cfg : Config) : Except PyErr String :=
  let bits : List String :=
    (if truthy cfg.version then [cfg.version.getD ""] else [])
    ++ (if truthy cfg.version_hashable then [w.sha1 (cfg.version_hashable.getD "")] else [])
  if truthy cfg.version_command then
    let cmd := cfg.version_command.getD ""
    if w.probeOk cmd then
      let output := (w.probeOutput cmd).trim
      if versionOutputOk output then
        Except.ok (String.intercalate "-" (bits ++ [output]))
      else
        Except.error (PyErr.configError ("invalid version output from version command: " ++ output))
    else Except.error PyErr.calledProcessError
  else Except.ok (String.intercalate "-" bits)

/-! ## Error kinds of the specification (section 7) -/

/-- The error kinds named by the specification. -/
inductive ErrKind where
  | configErrorKind
  | artifactExists
  | transportFailure
  | notFound
  | unsupportedType
  | internalInvariantViolation
deriving DecidableEq

/-- Message prefix test (on the character lists). -/
def msgStartsWith (pre s : String) : Bool :=
  pre.data.isPrefixOf s.data

/-- Classification of the exceptions raised by the source into the
specification's error kinds, by raise site: the two "already exists"
`AppError`s are `ArtifactExists`; the hardlink-directory `AppError` and
the neither-file-nor-directory `ValueError` are `UnsupportedType`; the
missing-local-path `ValueError` is `NotFound`; `AssertionError` is the
internal invariant violation; a non-zero external command exit is
`TransportFailure`. -/
def classify : PyErr → ErrKind
  | PyErr.appError m =>
      if msgStartsWith "archive already in cache" m || msgStartsWith "target already exists" m then
        ErrKind.artifactExists
      else ErrKind.unsupportedType
  | PyErr.valueError m =>
      if msgStartsWith "file not found" m then ErrKind.notFound else ErrKind.unsupportedType
  | PyErr.assertionError _ => ErrKind.internalInvariantViolation
  | PyErr.calledProcessError => ErrKind.transportFailure
  | PyErr.configError _ => ErrKind.configErrorKind

/-! ## Helper lemmas about the path layer -/

theorem str_ne_empty_iff {a : String} : a ≠ "" ↔ a.data ≠ [] := by
  constructor
  · intro h hd
    exact h (String.ext hd)
  · intro h he
    exact h (he ▸ rfl)

theorem head?_append_of_ne_nil {α : Type} {l l' : List α} (h : l ≠ []) :
    (l ++ l').head? = l.head? := by
  rw [List.head?_append]
  rcases l with _ | ⟨c, t⟩
  · exact absurd rfl h
  · simp [Option.or]

theorem getLast?_append_of_ne_nil {α : Type} {l l' : List α} (h : l' ≠ []) :
    (l ++ l').getLast? = l'.getLast? := by
  rw [List.getLast?_append]
  rcases hd : l'.getLast? with _ | c
  · exact absurd (List.getLast?_eq_none_iff.mp hd) h
  · simp [Option.or]

theorem headIsSlash_append {a b : String} (ha : a ≠ "") :
    headIsSlash (a ++ b) ↔ headIsSlash a := by
  unfold headIsSlash
  rw [String.data_append, head?_append_of_ne_nil (str_ne_empty_iff.mp ha)]

theorem lastIsSlash_append {a b : String} (hb : b ≠ "") :
    lastIsSlash (a ++ b) ↔ lastIsSlash b := by
  unfold lastIsSlash
  rw [String.data_append, getLast?_append_of_ne_nil (str_ne_empty_iff.mp hb)]

theorem append_ne_empty_right {a b : String} (hb : b ≠ "") : a ++ b ≠ "" := by
  rw [str_ne_empty_iff, String.data_append]
  intro h
  exact str_ne_empty_iff.mp hb (List.append_eq_nil.mp h).2

theorem joinTwo_of_abs {p b : String} (h : headIsSlash b) : joinTwo p b = b := by
  unfold joinTwo
  rw [if_pos h]

theorem joinTwo_flat {p b : String} (hb : ¬ headIsSlash b) (hp : p = "" ∨ lastIsSlash p) :
    joinTwo p b = p ++ b := by
  unfold joinTwo
  rw [if_neg hb, if_pos hp]

theorem joinTwo_std {p b : String} (hb : ¬ headIsSlash b) (hp : p ≠ "")
    (hl : ¬ lastIsSlash p) : joinTwo p b = p ++ "/" ++ b := by
  unfold joinTwo
  rw [if_neg hb, if_neg]
  rintro (h | h)
  · exact hp h
  · exact hl h

theorem append_cancel_left_str {a b c : String} (h : a ++ b = a ++ c) : b = c := by
  have hd := congrArg String.data h
  simp only [String.data_append] at hd
  exact String.ext ((List.append_right_inj a.data).mp hd)

theorem append_cancel_right_str {a b c : String} (h : a ++ c = b ++ c) : a = b := by
  have hd := congrArg String.data h
  simp only [String.data_append] at hd
  exact String.ext ((List.append_left_inj c.data).mp hd)

/-- Cancellation through one `joinTwo` layer: when the two second
components agree on absoluteness, equal joins force equal components. -/
theorem joinTwo_cancel {A s1 s2 : String} (hh : headIsSlash s1 ↔ headIsSlash s2)
    (h : joinTwo A s1 = joinTwo A s2) : s1 = s2 := by
  by_cases habs : headIsSlash s1
  · rwa [joinTwo_of_abs habs, joinTwo_of_abs (hh.mp habs)] at h
  · have habs2 : ¬ headIsSlash s2 := fun hx => habs (hh.mpr hx)
    by_cases hA : A = "" ∨ lastIsSlash A
    · rw [joinTwo_flat habs hA, joinTwo_flat habs2 hA] at h
      exact append_cancel_left_str h
    · push_neg at hA
      rw [joinTwo_std habs hA.1 hA.2, joinTwo_std habs2 hA.1 hA.2] at h
      exact append_cancel_left_str h

/-! ## Facts about the versioned segment `local + ".$" + version + "$"` -/

theorem seg_last (A : String) : (A ++ VERSION_END).data.getLast? = some '$' := by
  rw [String.data_append]
  exact List.getLast?_concat _

theorem seg_not_lastIsSlash (A : String) : ¬ lastIsSlash (A ++ VERSION_END) := by
  unfold lastIsSlash
  rw [seg_last]
  simp

theorem seg_ne_empty (A : String) : A ++ VERSION_END ≠ "" :=
  append_ne_empty_right (by decide)

theorem seg_inj {L v1 v2 : String}
    (h : L ++ VERSION_SEP ++ v1 ++ VERSION_END = L ++ VERSION_SEP ++ v2 ++ VERSION_END) :
    v1 = v2 :=
  append_cancel_left_str (append_cancel_right_str h)

theorem append_ne_empty_left {a b : String} (ha : a ≠ "") : a ++ b ≠ "" := by
  rw [str_ne_empty_iff, String.data_append]
  intro h
  exact str_ne_empty_iff.mp ha (List.append_eq_nil.mp h).1

theorem seg_head (L v : String) :
    headIsSlash (L ++ VERSION_SEP ++ v ++ VERSION_END) ↔ headIsSlash (L ++ VERSION_SEP) := by
  have h1 : L ++ VERSION_SEP ≠ "" := append_ne_empty_right (by decide)
  exact (headIsSlash_append (append_ne_empty_left h1)).trans (headIsSlash_append h1)

theorem empty_append_str (s : String) : "" ++ s = s :=
  String.ext (by simp only [String.data_append]; rfl)

theorem seg_p_last (rp L v : String) :
    (joinTwo rp (L ++ VERSION_SEP ++ v ++ VERSION_END)).data.getLast? = some '$' := by
  by_cases habs : headIsSlash (L ++ VERSION_SEP ++ v ++ VERSION_END)
  · rw [joinTwo_of_abs habs]
    exact seg_last _
  · by_cases hA : rp = "" ∨ lastIsSlash rp
    · rw [joinTwo_flat habs hA, String.data_append,
        getLast?_append_of_ne_nil (str_ne_empty_iff.mp (seg_ne_empty _))]
      exact seg_last _
    · push_neg at hA
      rw [joinTwo_std habs hA.1 hA.2, String.data_append,
        getLast?_append_of_ne_nil (str_ne_empty_iff.mp (seg_ne_empty _))]
      exact seg_last _

theorem seg_p_not_lastIsSlash (rp L v : String) :
    ¬ lastIsSlash (joinTwo rp (L ++ VERSION_SEP ++ v ++ VERSION_END)) := by
  unfold lastIsSlash
  rw [seg_p_last]
  simp

theorem seg_p_ne_empty (rp L v : String) :
    joinTwo rp (L ++ VERSION_SEP ++ v ++ VERSION_END) ≠ "" := by
  rw [str_ne_empty_iff]
  intro h
  have := seg_p_last rp L v
  rw [h] at this
  simp at this

theorem seg_p_head (rp L v : String) :
    headIsSlash (joinTwo rp (L ++ VERSION_SEP ++ v ++ VERSION_END))
      ↔ (headIsSlash (L ++ VERSION_SEP) ∨ (rp ≠ "" ∧ headIsSlash rp)) := by
  by_cases habs : headIsSlash (L ++ VERSION_SEP ++ v ++ VERSION_END)
  · rw [joinTwo_of_abs habs]
    have h := (seg_head L v).mp habs
    simp [habs, h]
  · have hseg : ¬ headIsSlash (L ++ VERSION_SEP) := fun h => habs ((seg_head L v).mpr h)
    by_cases hrp : rp = ""
    · rw [joinTwo_flat habs (Or.inl hrp), hrp, empty_append_str]
      simp [hseg, hrp, (seg_head L v)]
    · by_cases hlast : lastIsSlash rp
      · rw [joinTwo_flat habs (Or.inr hlast), headIsSlash_append hrp]
        simp [hseg, hrp]
      · rw [joinTwo_std habs hrp hlast,
          headIsSlash_append (append_ne_empty_left hrp : rp ++ "/" ≠ ""),
          headIsSlash_append hrp]
        simp [hseg, hrp]

theorem pyBasename_no_slash (p : String) : ∀ c ∈ (pyBasename p).data, c ≠ '/' := by
  intro c hc
  have hc2 : c ∈ ((p.data.reverse.takeWhile fun ch => ch ≠ '/').reverse) := hc
  rw [List.mem_reverse] at hc2
  have hp := List.mem_takeWhile_imp hc2
  exact of_decide_eq_true hp

theorem not_headIsSlash_of_no_slash {s : String} (h : ∀ c ∈ s.data, c ≠ '/') :
    ¬ headIsSlash s := by
  unfold headIsSlash
  intro hh
  rcases hd : s.data with _ | ⟨c, t⟩
  · rw [hd] at hh
    simp at hh
  · rw [hd] at hh
    have hc : c = '/' := by
      injection hh
    exact h c (hd ▸ List.mem_cons_self c t) hc

theorem not_headIsSlash_basename_suffix (L suffix : String)
    (hsuf : ∀ c ∈ suffix.data, c ≠ '/') :
    ¬ headIsSlash (pyBasename L ++ suffix) := by
  apply not_headIsSlash_of_no_slash
  intro c hc
  rw [String.data_append, List.mem_append] at hc
  rcases hc with hc | hc
  · exact pyBasename_no_slash L c hc
  · exact hsuf c hc


/-! ## Claim C7: distinct versions never collide -/

/-- C7: for every descriptor and every pair of distinct version strings,
the derived cache paths are distinct: the versioned directory segment
ends in the dollar terminator, so no `os.path.join` interaction can make
two different versions produce the same path. -/
theorem cache_path_injective_in_version (c : FileCache) (cfg : Config) (v1 v2 : String)
    (hne : v1 ≠ v2) :
    FileCache.cache_path c cfg v1 "" ≠ FileCache.cache_path c cfg v2 "" := by
  intro heq
  apply hne
  have he :
      joinTwo (joinTwo c.contents_path (FileCache.pathify_remote_loc cfg.remote_prefix_loc))
        (joinTwo (joinTwo cfg.remote_path
            (cfg.local_path ++ VERSION_SEP ++ v1 ++ VERSION_END))
          (pyBasename cfg.local_path ++ ""))
      = joinTwo (joinTwo c.contents_path (FileCache.pathify_remote_loc cfg.remote_prefix_loc))
        (joinTwo (joinTwo cfg.remote_path
            (cfg.local_path ++ VERSION_SEP ++ v2 ++ VERSION_END))
          (pyBasename cfg.local_path ++ "")) := heq
  have hBn : ¬ headIsSlash (pyBasename cfg.local_path ++ "") :=
    not_headIsSlash_basename_suffix cfg.local_path "" (by intro c hc; simp at hc)
  have hP1ne := seg_p_ne_empty cfg.remote_path cfg.local_path v1
  have hP2ne := seg_p_ne_empty cfg.remote_path cfg.local_path v2
  have hP1l := seg_p_not_lastIsSlash cfg.remote_path cfg.local_path v1
  have hP2l := seg_p_not_lastIsSlash cfg.remote_path cfg.local_path v2
  have hJ1 := joinTwo_std hBn hP1ne hP1l
  have hJ2 := joinTwo_std hBn hP2ne hP2l
  have hh :
      headIsSlash (joinTwo (joinTwo cfg.remote_path
          (cfg.local_path ++ VERSION_SEP ++ v1 ++ VERSION_END))
        (pyBasename cfg.local_path ++ ""))
      ↔ headIsSlash (joinTwo (joinTwo cfg.remote_path
          (cfg.local_path ++ VERSION_SEP ++ v2 ++ VERSION_END))
        (pyBasename cfg.local_path ++ "")) := by
    rw [hJ1, hJ2]
    have e1 : headIsSlash (joinTwo cfg.remote_path
          (cfg.local_path ++ VERSION_SEP ++ v1 ++ VERSION_END) ++ "/" ++
          (pyBasename cfg.local_path ++ ""))
        ↔ headIsSlash (joinTwo cfg.remote_path
          (cfg.local_path ++ VERSION_SEP ++ v1 ++ VERSION_END)) :=
      (headIsSlash_append (append_ne_empty_left hP1ne)).trans (headIsSlash_append hP1ne)
    have e2 : headIsSlash (joinTwo cfg.remote_path
          (cfg.local_path ++ VERSION_SEP ++ v2 ++ VERSION_END) ++ "/" ++
          (pyBasename cfg.local_path ++ ""))
        ↔ headIsSlash (joinTwo cfg.remote_path
          (cfg.local_path ++ VERSION_SEP ++ v2 ++ VERSION_END)) :=
      (headIsSlash_append (append_ne_empty_left hP2ne)).trans (headIsSlash_append hP2ne)
    exact (e1.trans (seg_p_head cfg.remote_path cfg.local_path v1)).trans
      ((e2.trans (seg_p_head cfg.remote_path cfg.local_path v2)).symm)
  have h3 := joinTwo_cancel hh he
  rw [hJ1, hJ2] at h3
  have h4 := append_cancel_right_str (append_cancel_right_str h3)
  have h5 := joinTwo_cancel
    ((seg_head cfg.local_path v1).trans ((seg_head cfg.local_path v2).symm)) h4
  exact seg_inj h5

/-- Witness for C7 at a concrete descriptor and version pair. -/
theorem cache_path_injective_in_version_witness :
    ("1" : String) ≠ "2" ∧
      FileCache.cache_path (FileCache.init "/cache")
          { local_path := "x", remote_prefix_loc := "s3://b/p", remote_path := "p",
            copy_type := CopyType.symlink, upload_command := "u", download_command := "d",
            version := none, version_hashable := none, version_command := none } "1" ""
        ≠ FileCache.cache_path (FileCache.init "/cache")
          { local_path := "x", remote_prefix_loc := "s3://b/p", remote_path := "p",
            copy_type := CopyType.symlink, upload_command := "u", download_command := "d",
            version := none, version_hashable := none, version_command := none } "2" "" :=
  ⟨by decide,
    cache_path_injective_in_version (FileCache.init "/cache")
      { local_path := "x", remote_prefix_loc := "s3://b/p", remote_path := "p",
        copy_type := CopyType.symlink, upload_command := "u", download_command := "d",
        version := none, version_hashable := none, version_command := none } "1" "2"
      (by decide)⟩

/-! ## Claim C1: the cache-path layout -/

theorem pyBasename_eq_self {p : String} (h : ∀ ch ∈ p.data, ch ≠ '/') :
    pyBasename p = p := by
  apply String.ext
  show (p.data.reverse.takeWhile fun c => c ≠ '/').reverse = p.data
  rw [List.takeWhile_eq_self_iff.mpr, List.reverse_reverse]
  intro a ha
  rw [List.mem_reverse] at ha
  exact decide_eq_true (h a ha)

/-- C1 counterexample: for the spec scenario descriptor (local path
`/tmp/x`, remote location `s3://bucket/proj`, version `3`, empty suffix)
the code returns `/tmp/x.$3$/x` — the absolute local path forms the
versioned segment and resets `os.path.join` — which differs from the
layout claimed by the specification under either of its two readings of
the sanitized remote location. -/
theorem cache_path_scenario_counterexample :
    FileCache.cache_path (FileCache.init "/cache")
        { local_path := "/tmp/x", remote_prefix_loc := "s3://bucket/proj", remote_path := "proj",
          copy_type := CopyType.symlink, upload_command := "u", download_command := "d",
          version := some "3", version_hashable := none, version_command := none } "3" ""
      = "/tmp/x.$3$/x"
    ∧ ("/tmp/x.$3$/x" : String) ≠ "/cache/contents/s3/bucket/proj/x.$3$/x"
    ∧ ("/tmp/x.$3$/x" : String) ≠ "/cache/contents/s3.bucket.proj/x.$3$/x" :=
  ⟨by decide, by decide, by decide⟩

/-- C1 amended: for a well-formed descriptor — a non-empty slash-free
local name, and relative, non-empty remote path, sanitized remote
location and contents path in their normal shapes — the cache path is
`contents/<sanitized-remote-location>/<remote_path>/<name>.$<version>$/<name><suffix>`:
the descriptor's `remote_path` is interposed between the sanitized
remote location and the versioned segment, and the segment is built from
the local name. -/
theorem cache_path_layout_amended (c : FileCache) (cfg : Config) (version suffix : String)
    (hL : cfg.local_path ≠ "")
    (hLs : ∀ ch ∈ cfg.local_path.data, ch ≠ '/')
    (hrp : cfg.remote_path ≠ "")
    (hrph : ¬ headIsSlash cfg.remote_path)
    (hrpl : ¬ lastIsSlash cfg.remote_path)
    (hP : FileCache.pathify_remote_loc cfg.remote_prefix_loc ≠ "")
    (hPh : ¬ headIsSlash (FileCache.pathify_remote_loc cfg.remote_prefix_loc))
    (hPl : ¬ lastIsSlash (FileCache.pathify_remote_loc cfg.remote_prefix_loc))
    (hC : c.contents_path ≠ "")
    (hCl : ¬ lastIsSlash c.contents_path) :
    FileCache.cache_path c cfg version suffix
      = c.contents_path ++ "/" ++ FileCache.pathify_remote_loc cfg.remote_prefix_loc
        ++ "/" ++ cfg.remote_path ++ "/" ++ cfg.local_path ++ VERSION_SEP ++ version
        ++ VERSION_END ++ "/" ++ (cfg.local_path ++ suffix) := by
  have hLh : ¬ headIsSlash cfg.local_path := not_headIsSlash_of_no_slash hLs
  have hsegh : ¬ headIsSlash (cfg.local_path ++ VERSION_SEP ++ version ++ VERSION_END) :=
    fun h => hLh ((headIsSlash_append hL).mp ((seg_head cfg.local_path version).mp h))
  have hJ1 : joinTwo cfg.remote_path (cfg.local_path ++ VERSION_SEP ++ version ++ VERSION_END)
      = cfg.remote_path ++ "/" ++ (cfg.local_path ++ VERSION_SEP ++ version ++ VERSION_END) :=
    joinTwo_std hsegh hrp hrpl
  have hBh : ¬ headIsSlash (cfg.local_path ++ suffix) :=
    fun h => hLh ((headIsSlash_append hL).mp h)
  have hJ1ne : cfg.remote_path ++ "/" ++ (cfg.local_path ++ VERSION_SEP ++ version ++ VERSION_END) ≠ "" :=
    append_ne_empty_left (append_ne_empty_left hrp)
  have hJ1l : ¬ lastIsSlash (cfg.remote_path ++ "/" ++ (cfg.local_path ++ VERSION_SEP ++ version ++ VERSION_END)) := by
    intro h
    exact seg_not_lastIsSlash (cfg.local_path ++ VERSION_SEP ++ version)
      ((lastIsSlash_append (seg_ne_empty (cfg.local_path ++ VERSION_SEP ++ version))).mp h)
  have hC2 : joinTwo c.contents_path (FileCache.pathify_remote_loc cfg.remote_prefix_loc)
      = c.contents_path ++ "/" ++ FileCache.pathify_remote_loc cfg.remote_prefix_loc :=
    joinTwo_std hPh hC hCl
  have hC2ne : c.contents_path ++ "/" ++ FileCache.pathify_remote_loc cfg.remote_prefix_loc ≠ "" :=
    append_ne_empty_right hP
  have hC2l : ¬ lastIsSlash (c.contents_path ++ "/" ++ FileCache.pathify_remote_loc cfg.remote_prefix_loc) :=
    fun h => hPl ((lastIsSlash_append hP).mp h)
  have hJ2h : ¬ headIsSlash (cfg.remote_path ++ "/"
      ++ (cfg.local_path ++ VERSION_SEP ++ version ++ VERSION_END) ++ "/"
      ++ (cfg.local_path ++ suffix)) := by
    intro h
    apply hrph
    have h1 := (headIsSlash_append (append_ne_empty_left hJ1ne :
      cfg.remote_path ++ "/" ++ (cfg.local_path ++ VERSION_SEP ++ version ++ VERSION_END) ++ "/" ≠ "")).mp h
    have h2 := (headIsSlash_append hJ1ne).mp h1
    have h3 := (headIsSlash_append (append_ne_empty_left hrp : cfg.remote_path ++ "/" ≠ "")).mp h2
    exact (headIsSlash_append hrp).mp h3
  show joinTwo (joinTwo c.contents_path (FileCache.pathify_remote_loc cfg.remote_prefix_loc))
      (joinTwo (joinTwo cfg.remote_path (cfg.local_path ++ VERSION_SEP ++ version ++ VERSION_END))
        (pyBasename cfg.local_path ++ suffix)) = _
  rw [pyBasename_eq_self hLs, hJ1, hC2,
    joinTwo_std hBh hJ1ne hJ1l,
    joinTwo_std hJ2h hC2ne hC2l]
  simp [String.append_assoc]

/-! ## Classification lemmas for symbolic error messages -/

theorem classify_target_exists (t : String) :
    classify (PyErr.appError ("target already exists: " ++ t)) = ErrKind.artifactExists := rfl

theorem classify_archive_exists (p : String) :
    classify (PyErr.appError ("archive already in cache (has version changed?): " ++ p))
      = ErrKind.artifactExists := rfl

theorem classify_hardlink_dir (p : String) :
    classify (PyErr.appError ("cannot hardlink a directory: " ++ p))
      = ErrKind.unsupportedType := rfl

/-! ## Claim C2: lazy, idempotent cache-root setup -/

theorem setup_sets_done (c : FileCache) (s : St) :
    (outState (FileCache.setup c s)).setup_done = true := by
  unfold FileCache.setup outState
  by_cases h : s.setup_done
  · simp [h]
  · by_cases h2 : pyExists s.fs c.version_path = true <;> simp [h, h2]

theorem setup_done_noop {c : FileCache} {s : St} (h : s.setup_done = true) :
    FileCache.setup c s = Outcome.ok s := by
  unfold FileCache.setup
  simp [h]

/-- C2: cache-root initialization is idempotent: when the version marker
file already exists the root is accepted with no filesystem writes;
otherwise the contents directory and marker file are created; a second
initialization — either through the same object (whose `setup_done` flag
is set) or through a fresh object over the resulting filesystem — leaves
the filesystem, and with it the marker file and the contents directory,
unchanged. -/
theorem setup_lazy_idempotent (c : FileCache) (s : St) :
    (pyExists s.fs c.version_path = true → s.setup_done = false →
        FileCache.setup c s = Outcome.ok { s with setup_done := true })
    ∧ (pyExists s.fs c.version_path = false → s.setup_done = false →
        FileCache.setup c s = Outcome.ok
          { fs := (s.fs.makeAllDirs c.contents_path).write c.version_path
              (Entry.file (FileCache.version ++ "\n"))
            events := s.events
            setup_done := true })
    ∧ outState (FileCache.setup c (outState (FileCache.setup c s)))
        = outState (FileCache.setup c s)
    ∧ (s.setup_done = false →
        (outState (FileCache.setup c
          { fs := (outState (FileCache.setup c s)).fs
            events := (outState (FileCache.setup c s)).events
            setup_done := false })).fs = (outState (FileCache.setup c s)).fs) := by
  refine ⟨?_, ?_, ?_, ?_⟩
  · intro hex hdone
    unfold FileCache.setup
    simp [hex, hdone]
  · intro hex hdone
    unfold FileCache.setup
    simp [hex, hdone]
  · rw [setup_done_noop (setup_sets_done c s)]
    rfl
  · intro hdone
    by_cases hex : (s.fs c.version_path).isSome = true
    · simp [FileCache.setup, outState, pyExists, hex, hdone]
    · have hex2 : (s.fs c.version_path).isSome = false := by
        simpa using hex
      simp [FileCache.setup, outState, pyExists, hex2, hdone, FS.write]

/-- Demo filesystem: an existing, still-uninitialized cache root `/r`. -/
def fsDemoR : FS :=
  fun p => if p = "/r" then some Entry.dir else none

/-- Demo state over `fsDemoR`. -/
def stDemoR : St :=
  { fs := fsDemoR, events := [], setup_done := false }

/-- Demo cache object rooted at `/r`. -/
def fcDemoR : FileCache := FileCache.init "/r"

/-- Witness for C2 at a concrete cache root and initial filesystem. -/
theorem setup_lazy_idempotent_witness :
    pyExists fsDemoR fcDemoR.version_path = false
    ∧ FileCache.setup fcDemoR stDemoR
      = Outcome.ok
        { fs := FS.write (FS.makeAllDirs fsDemoR fcDemoR.contents_path) fcDemoR.version_path
            (Entry.file (FileCache.version ++ "\n"))
          events := []
          setup_done := true } :=
  ⟨by decide, (setup_lazy_idempotent fcDemoR stDemoR).2.1 (by decide) rfl⟩

/-! ## Claim C6: hardlink strategy against a cached directory -/

/-- C6: with the hardlink strategy and a cached directory, the installer
fails with the unsupported-type error before `checked_remove` runs, so
the state — in particular any entry at the target path — is completely
unchanged. -/
theorem hardlink_dir_unsupported (cache_path target_path : String) (force make_backup : Bool)
    (s : St) (h : s.fs cache_path = some Entry.dir) :
    install_from_cache cache_path target_path CopyType.hardlink force make_backup s
      = Outcome.err (PyErr.appError ("cannot hardlink a directory: " ++ cache_path)) s
    ∧ classify (PyErr.appError ("cannot hardlink a directory: " ++ cache_path))
      = ErrKind.unsupportedType := by
  constructor
  · have he : pyExists s.fs cache_path = true := by
      simp [pyExists, h]
    have hd : pyIsDir s.fs cache_path = true := by
      simp [pyIsDir, h]
    unfold install_from_cache
    simp [he, hd]
  · exact classify_hardlink_dir cache_path

/-- Demo filesystem for installer claims: a cached directory at `c`, a
cached file at `cf`, and an existing target file at `t`. -/
def fsDemoInst : FS :=
  fun p =>
    if p = "c" then some Entry.dir
    else if p = "cf" then some (Entry.file "payload")
    else if p = "t" then some (Entry.file "old")
    else none

/-- Demo state over `fsDemoInst`. -/
def stDemoInst : St :=
  { fs := fsDemoInst, events := [], setup_done := true }

/-- Witness for C6 at a concrete state. -/
theorem hardlink_dir_unsupported_witness :
    fsDemoInst "c" = some Entry.dir
    ∧ (install_from_cache "c" "t" CopyType.hardlink false false stDemoInst
        = Outcome.err (PyErr.appError ("cannot hardlink a directory: " ++ "c")) stDemoInst
      ∧ classify (PyErr.appError ("cannot hardlink a directory: " ++ "c"))
        = ErrKind.unsupportedType) :=
  ⟨by decide, hardlink_dir_unsupported "c" "t" false false stDemoInst (by decide)⟩

/-! ## Claim C5: install-from-cache on an existing target without force -/

/-- C5 counterexample: an `installFromCache` call with the hardlink
strategy, a cached directory, an existing target and `force=false` does
not fail with `ArtifactExists` — it fails with the unsupported-type
error — refuting the claim's universal quantification over all calls
with an existing target and `force=false`. -/
theorem install_no_force_counterexample :
    pyExists stDemoInst.fs "t" = true
    ∧ errOf (install_from_cache "c" "t" CopyType.hardlink false false stDemoInst)
      = some (PyErr.appError ("cannot hardlink a directory: c"))
    ∧ classify (PyErr.appError ("cannot hardlink a directory: c")) ≠ ErrKind.artifactExists := by
  refine ⟨by decide, ?_, by decide⟩
  rw [(hardlink_dir_unsupported "c" "t" false false stDemoInst (by decide)).1]
  rfl

theorem checked_remove_exists_no_force {t : String} {mb : Bool} {s : St}
    (h : pyExists s.fs t = true) :
    checked_remove t false mb s
      = Outcome.err (PyErr.appError ("target already exists: " ++ t)) s := by
  unfold checked_remove
  simp [h]

/-- C5 amended: for every `installFromCache` call where the cached path
exists (the installer's stated precondition), the target path exists and
`force` is false, and which is not the hardlink-strategy-on-cached-directory
case (that one fails earlier with `UnsupportedType`, claim C6), the
operation fails with the `ArtifactExists` error and leaves the state —
in particular the existing target — completely unchanged. -/
theorem install_no_force_artifact_exists (cache_path target_path : String) (ct : CopyType)
    (make_backup : Bool) (s : St)
    (hcache : pyExists s.fs cache_path = true)
    (htarget : pyExists s.fs target_path = true)
    (hnot : ¬ (ct = CopyType.hardlink ∧ pyIsDir s.fs cache_path = true)) :
    install_from_cache cache_path target_path ct false make_backup s
      = Outcome.err (PyErr.appError ("target already exists: " ++ target_path)) s
    ∧ classify (PyErr.appError ("target already exists: " ++ target_path))
      = ErrKind.artifactExists := by
  constructor
  · unfold install_from_cache
    cases ct with
    | symlink =>
        simp [hcache, checked_remove_exists_no_force htarget, andThen]
    | hardlink =>
        have hd : pyIsDir s.fs cache_path = false := by
          rcases hb : pyIsDir s.fs cache_path
          · rfl
          · exact absurd ⟨rfl, hb⟩ hnot
        simp [hcache, hd, checked_remove_exists_no_force htarget, andThen]
    | copy =>
        simp [hcache, checked_remove_exists_no_force htarget, andThen]
  · exact classify_target_exists target_path

/-- Witness for the amended C5 at a concrete state (copy strategy,
cached file `cf`, existing target `t`). -/
theorem install_no_force_artifact_exists_witness :
    pyExists stDemoInst.fs "cf" = true
    ∧ pyExists stDemoInst.fs "t" = true
    ∧ (install_from_cache "cf" "t" CopyType.copy false false stDemoInst
        = Outcome.err (PyErr.appError ("target already exists: " ++ "t")) stDemoInst
      ∧ classify (PyErr.appError ("target already exists: " ++ "t"))
        = ErrKind.artifactExists) :=
  ⟨by decide, by decide,
    install_no_force_artifact_exists "cf" "t" CopyType.copy false stDemoInst
      (by decide) (by decide) (by decide)⟩

/-! ## Claim C3: publish is not idempotent without force -/

/-- C3: when the cache archive path of a directory publish already
exists, publishing with `force=false` fails with the `ArtifactExists`
error and leaves the state (in particular the existing archive)
completely unchanged; with `force=true` the stale archive is deleted
first and the publish proceeds into the upload/unarchive/reinstall rest
of the protocol over the recreated archive. -/
theorem publish_archive_exists (w : World) (c : FileCache) (cfg : Config) (version : String)
    (s : St)
    (hdone : s.setup_done = true)
    (hdir : pyIsDir s.fs cfg.local_path = true)
    (hex : pyExists s.fs (FileCache.cache_path c cfg version ARCHIVE_SUFFIX) = true) :
    (FileCache.publish w c cfg version false s
        = Outcome.err (PyErr.appError ("archive already in cache (has version changed?): "
            ++ FileCache.cache_path c cfg version ARCHIVE_SUFFIX)) s
      ∧ classify (PyErr.appError ("archive already in cache (has version changed?): "
            ++ FileCache.cache_path c cfg version ARCHIVE_SUFFIX)) = ErrKind.artifactExists)
    ∧ (w.zipOk = true →
        FileCache.publish w c cfg version true s
          = publishDirRest w c cfg version true
              { fs := FS.write
                  (FS.makeParentDirs
                    (FS.removeOne s.fs (FileCache.cache_path c cfg version ARCHIVE_SUFFIX))
                    (FileCache.cache_path c cfg version ARCHIVE_SUFFIX))
                  (FileCache.cache_path c cfg version ARCHIVE_SUFFIX)
                  (Entry.file (w.zipContent cfg.local_path))
                events := s.events ++ [Ev.zipCmd]
                setup_done := s.setup_done }) := by
  refine ⟨⟨?_, classify_archive_exists _⟩, ?_⟩
  · unfold FileCache.publish
    rw [setup_done_noop hdone]
    simp only [andThen]
    simp [hdir, compress_dir, hex, andThen]
  · intro hzip
    unfold FileCache.publish
    rw [setup_done_noop hdone]
    simp only [andThen]
    simp [hdir, compress_dir, hex, compress_run, hzip, logEv, setFS, andThen]

/-- Demo descriptor for publish claims: a directory item `d`. -/
def cfgDemoPub : Config :=
  { local_path := "d", remote_prefix_loc := "s3://b", remote_path := "r",
    copy_type := CopyType.symlink, upload_command := "u", download_command := "dl",
    version := some "1", version_hashable := none, version_command := none }

/-- Demo cache object for publish claims. -/
def fcDemo : FileCache := FileCache.init "/r"

/-- Demo world in which every external command succeeds. -/
def wDemo : World :=
  { uploadOk := fun _ => true, downloadOk := fun _ => true,
    downloadContent := fun _ => "data", zipOk := true,
    zipContent := fun _ => "zipdata", unzipOk := true,
    sha1 := fun _ => "abcd1234", probeOk := fun _ => true,
    probeOutput := fun _ => "7" }

/-- Demo filesystem for C3: the directory `d` and its version-1 cache
archive both exist. -/
def fsDemoPub : FS :=
  fun p =>
    if p = "d" then some Entry.dir
    else if p = "/r/contents/s3/b/r/d.$1$/d.zip" then some (Entry.file "z")
    else none

/-- Demo state for C3. -/
def stDemoPub : St :=
  { fs := fsDemoPub, events := [], setup_done := true }

/-- Witness for C3 at a concrete state with an existing cache archive. -/
theorem publish_archive_exists_witness :
    pyIsDir stDemoPub.fs cfgDemoPub.local_path = true
    ∧ pyExists stDemoPub.fs (FileCache.cache_path fcDemo cfgDemoPub "1" ARCHIVE_SUFFIX) = true
    ∧ (FileCache.publish wDemo fcDemo cfgDemoPub "1" false stDemoPub
        = Outcome.err (PyErr.appError ("archive already in cache (has version changed?): "
            ++ FileCache.cache_path fcDemo cfgDemoPub "1" ARCHIVE_SUFFIX)) stDemoPub
      ∧ classify (PyErr.appError ("archive already in cache (has version changed?): "
            ++ FileCache.cache_path fcDemo cfgDemoPub "1" ARCHIVE_SUFFIX))
        = ErrKind.artifactExists) :=
  ⟨by decide, by decide,
    (publish_archive_exists wDemo fcDemo cfgDemoPub "1" stDemoPub rfl
      (by decide) (by decide)).1⟩

/-! ## Claim C4: the directory-mode probe download on a cache miss -/

/-- C4: on an install cache miss, the archive variant is downloaded
first; when that probe download fails with the external command error,
the failure is caught and the plain-file variant is downloaded instead,
after which the install proceeds into the installer; a failure of the
file-variant download propagates as the external command error (the
spec's `TransportFailure`) and aborts the install. -/
theorem install_probe_fallback (w : World) (c : FileCache) (cfg : Config) (version : String)
    (force : Bool) (s : St)
    (hdone : s.setup_done = true)
    (hmiss : pyExists s.fs (FileCache.cache_path c cfg version "") = false)
    (hprobe : w.downloadOk (FileCache.remote_loc c cfg version ARCHIVE_SUFFIX) = false) :
    FileCache.install w c cfg version force s
      = (if w.downloadOk (FileCache.remote_loc c cfg version "") = true then
          install_from_cache (FileCache.cache_path c cfg version "") cfg.local_path
            cfg.copy_type force false
            { fs := FS.write (FS.makeParentDirs s.fs (FileCache.cache_path c cfg version ""))
                (FileCache.cache_path c cfg version "")
                (Entry.file (w.downloadContent (FileCache.remote_loc c cfg version "")))
              events := s.events
                ++ [Ev.download (FileCache.remote_loc c cfg version ARCHIVE_SUFFIX),
                    Ev.download (FileCache.remote_loc c cfg version "")]
              setup_done := s.setup_done }
        else
          Outcome.err PyErr.calledProcessError
            { fs := s.fs
              events := s.events
                ++ [Ev.download (FileCache.remote_loc c cfg version ARCHIVE_SUFFIX),
                    Ev.download (FileCache.remote_loc c cfg version "")]
              setup_done := s.setup_done })
    ∧ classify PyErr.calledProcessError = ErrKind.transportFailure := by
  refine ⟨?_, rfl⟩
  unfold FileCache.install installBody
  rw [setup_done_noop hdone]
  simp only [andThen]
  by_cases hf : w.downloadOk (FileCache.remote_loc c cfg version "") = true
  · simp [hmiss, download_file, hprobe, hf, logEv, setFS, andThen, List.append_assoc]
  · have hf2 : w.downloadOk (FileCache.remote_loc c cfg version "") = false := by
      simpa using hf
    simp [hmiss, download_file, hprobe, hf2, logEv, setFS, andThen, List.append_assoc]

/-- Demo state for C4: an initialized cache with no cached entry for the
demo item. -/
def stDemoMiss : St :=
  { fs := fun p => if p = "/r" then some Entry.dir else none
    events := []
    setup_done := true }

/-- Demo world in which every download fails (both the archive probe and
the file variant). -/
def wDemoAllFail : World :=
  { uploadOk := fun _ => true, downloadOk := fun _ => false,
    downloadContent := fun _ => "data", zipOk := true,
    zipContent := fun _ => "zipdata", unzipOk := true,
    sha1 := fun _ => "abcd1234", probeOk := fun _ => true,
    probeOutput := fun _ => "7" }

/-- Witness for C4 at a concrete cache-miss state: the probe download
and the fallback file download both run (in that order) and the
file-variant failure aborts the install with the command error. -/
theorem install_probe_fallback_witness :
    stDemoMiss.setup_done = true
    ∧ pyExists stDemoMiss.fs (FileCache.cache_path fcDemo cfgDemoPub "1" "") = false
    ∧ wDemoAllFail.downloadOk (FileCache.remote_loc fcDemo cfgDemoPub "1" ARCHIVE_SUFFIX) = false
    ∧ FileCache.install wDemoAllFail fcDemo cfgDemoPub "1" false stDemoMiss
      = Outcome.err PyErr.calledProcessError
        { fs := stDemoMiss.fs
          events := [Ev.download (FileCache.remote_loc fcDemo cfgDemoPub "1" ARCHIVE_SUFFIX),
            Ev.download (FileCache.remote_loc fcDemo cfgDemoPub "1" "")]
          setup_done := true } := by
  refine ⟨rfl, by decide, by decide, ?_⟩
  rw [(install_probe_fallback wDemoAllFail fcDemo cfgDemoPub "1" false stDemoMiss rfl
    (by decide) (by decide)).1]
  rfl

/-! ## Claim C8: a cache hit skips transport entirely -/

theorem checked_remove_events (t : String) (force : Bool) (s : St) :
    (outState (checked_remove t force false s)).events = s.events := by
  unfold checked_remove
  by_cases h : pyExists s.fs t = true
  · cases force <;> simp [h, outState, setFS]
  · simp [h, outState]

theorem install_from_cache_events (cp tp : String) (ct : CopyType) (force : Bool) (s : St) :
    (outState (install_from_cache cp tp ct force false s)).events = s.events := by
  have hcr := checked_remove_events tp force s
  unfold install_from_cache
  by_cases he : pyExists s.fs cp = true
  · rw [if_pos he]
    cases ct with
    | symlink =>
        rcases h : checked_remove tp force false s with s' | ⟨e, s'⟩
        · rw [h] at hcr
          simp only [outState] at hcr
          simp [andThen, outState, setFS, hcr]
        · rw [h] at hcr
          simp only [outState] at hcr
          simp [andThen, outState, hcr]
    | hardlink =>
        by_cases hd : pyIsDir s.fs cp = true
        · simp [hd, outState]
        · have hd2 : pyIsDir s.fs cp = false := by simpa using hd
          rw [hd2]
          rcases h : checked_remove tp force false s with s' | ⟨e, s'⟩
          · rw [h] at hcr
            simp only [outState] at hcr
            simp [andThen, outState, setFS, hcr]
          · rw [h] at hcr
            simp only [outState] at hcr
            simp [andThen, outState, hcr]
    | copy =>
        rcases h : checked_remove tp force false s with s' | ⟨e, s'⟩
        · rw [h] at hcr
          simp only [outState] at hcr
          simp [andThen, outState, setFS, hcr]
        · rw [h] at hcr
          simp only [outState] at hcr
          simp [andThen, outState, hcr]
  · rw [if_neg he]
    simp [outState]

/-- Demo descriptor for the publish-then-install scenario: a plain file `f`. -/
def cfgDemoC8 : Config :=
  { local_path := "f", remote_prefix_loc := "s3://b", remote_path := "r",
    copy_type := CopyType.symlink, upload_command := "u", download_command := "dl",
    version := some "1", version_hashable := none, version_command := none }

/-- Demo state for the publish-then-install scenario. -/
def stDemoC8 : St :=
  { fs := fun p =>
      if p = "/r" then some Entry.dir
      else if p = "f" then some (Entry.file "hi") else none
    events := []
    setup_done := false }

/-- C8: when the cache entry path already exists, `install` reduces to a
direct installer call on the cached entry with no transport or archive
command invoked (the event log is unchanged); and concretely, a publish
of a plain file followed by an install of the same descriptor and
version runs to completion with exactly the publish upload in the
combined command log — the install contacted nothing. -/
theorem install_cache_hit (w : World) (c : FileCache) (cfg : Config) (version : String)
    (force : Bool) (s : St)
    (hdone : s.setup_done = true)
    (hhit : pyExists s.fs (FileCache.cache_path c cfg version "") = true) :
    (FileCache.install w c cfg version force s
        = install_from_cache (FileCache.cache_path c cfg version "") cfg.local_path
            cfg.copy_type force false s
      ∧ (outState (FileCache.install w c cfg version force s)).events = s.events)
    ∧ (isOk (andThen (FileCache.publish wDemo fcDemo cfgDemoC8 "1" false stDemoC8)
          (fun s1 => FileCache.install wDemo fcDemo cfgDemoC8 "1" true s1)) = true
      ∧ (outState (andThen (FileCache.publish wDemo fcDemo cfgDemoC8 "1" false stDemoC8)
          (fun s1 => FileCache.install wDemo fcDemo cfgDemoC8 "1" true s1))).events
        = [Ev.upload (FileCache.remote_loc fcDemo cfgDemoC8 "1" "")]) := by
  have h1 : FileCache.install w c cfg version force s
      = install_from_cache (FileCache.cache_path c cfg version "") cfg.local_path
          cfg.copy_type force false s := by
    unfold FileCache.install installBody
    rw [setup_done_noop hdone]
    simp only [andThen]
    simp [hhit]
  refine ⟨⟨h1, ?_⟩, by decide, by decide⟩
  rw [h1]
  exact install_from_cache_events _ _ _ _ _

/-- Demo state for the C8 witness: an initialized cache whose entry for
the demo item already exists. -/
def stDemoHit : St :=
  { fs := fun p =>
      if p = "/r" then some Entry.dir
      else if p = "/r/contents/s3/b/r/d.$1$/d" then some (Entry.file "z") else none
    events := []
    setup_done := true }

/-- Witness for C8 at a concrete state whose cache entry exists. -/
theorem install_cache_hit_witness :
    stDemoHit.setup_done = true
    ∧ pyExists stDemoHit.fs (FileCache.cache_path fcDemo cfgDemoPub "1" "") = true
    ∧ (FileCache.install wDemo fcDemo cfgDemoPub "1" false stDemoHit
        = install_from_cache (FileCache.cache_path fcDemo cfgDemoPub "1" "")
            cfgDemoPub.local_path cfgDemoPub.copy_type false false stDemoHit
      ∧ (outState (FileCache.install wDemo fcDemo cfgDemoPub "1" false stDemoHit)).events
        = stDemoHit.events) :=
  ⟨rfl, by decide,
    (install_cache_hit wDemo fcDemo cfgDemoPub "1" false stDemoHit rfl (by decide)).1⟩

/-! ## Claim C10: install never preserves the target at a backup location -/

theorem count_backup_download (r : String) :
    ([Ev.download r].count Ev.backup) = 0 := rfl

theorem count_backup_unzip : ([Ev.unzipCmd].count Ev.backup) = 0 := rfl

theorem setup_events (c : FileCache) (s : St) :
    (outState (FileCache.setup c s)).events = s.events := by
  unfold FileCache.setup outState
  by_cases h : s.setup_done <;> by_cases h2 : pyExists s.fs c.version_path = true <;>
    simp [h, h2]

theorem setup_is_ok (c : FileCache) (s : St) :
    FileCache.setup c s = Outcome.ok (outState (FileCache.setup c s)) := by
  unfold FileCache.setup outState
  by_cases h : s.setup_done <;> by_cases h2 : pyExists s.fs c.version_path = true <;>
    simp [h, h2]

theorem download_file_events (w : World) (r lp : String) (s : St) :
    (outState (download_file w r lp s)).events = s.events ++ [Ev.download r] := by
  unfold download_file
  by_cases h : w.downloadOk r = true <;> simp [h, logEv, outState, setFS]

theorem decompress_dir_count (w : World) (a l : String) (force : Bool) (s : St) :
    (outState (decompress_dir w a l force s)).events.count Ev.backup
      = s.events.count Ev.backup := by
  unfold decompress_dir decompress_run
  by_cases h : pyExists s.fs l = true
  · cases force
    · simp [h, outState]
    · by_cases hu : w.unzipOk = true <;>
        simp [h, hu, outState, logEv, setFS, List.count_append, count_backup_unzip]
  · by_cases hu : w.unzipOk = true <;>
      simp [h, hu, outState, logEv, setFS, List.count_append, count_backup_unzip]

theorem count_backup_andThen {r : Outcome} {f : St → Outcome} {n : Nat}
    (hr : (outState r).events.count Ev.backup = n)
    (hf : ∀ s', (outState (f s')).events.count Ev.backup = s'.events.count Ev.backup) :
    (outState (andThen r f)).events.count Ev.backup = n := by
  cases r with
  | ok s' =>
      simp only [andThen]
      rw [hf s']
      simpa [outState] using hr
  | err e s' =>
      simpa [andThen, outState] using hr

theorem installBody_no_backup (w : World) (c : FileCache) (cfg : Config) (version : String)
    (force : Bool) (s : St) :
    (outState (installBody w c cfg version force s)).events.count Ev.backup
      = s.events.count Ev.backup := by
  unfold installBody
  by_cases hhit : pyExists s.fs (FileCache.cache_path c cfg version "") = true
  · rw [if_pos hhit, install_from_cache_events]
  · rw [if_neg hhit]
    cases hdl : download_file w (FileCache.remote_loc c cfg version ARCHIVE_SUFFIX)
        (FileCache.cache_path c cfg version ARCHIVE_SUFFIX) s with
    | ok s2 =>
        have hdle := download_file_events w (FileCache.remote_loc c cfg version ARCHIVE_SUFFIX)
          (FileCache.cache_path c cfg version ARCHIVE_SUFFIX) s
        rw [hdl] at hdle
        simp only [outState] at hdle
        have hs2 : s2.events.count Ev.backup = s.events.count Ev.backup := by
          simp [hdle, List.count_append, count_backup_download]
        apply count_backup_andThen
        · rw [decompress_dir_count]
          exact hs2
        · intro s3
          rw [install_from_cache_events]
    | err e s2 =>
        have hdle := download_file_events w (FileCache.remote_loc c cfg version ARCHIVE_SUFFIX)
          (FileCache.cache_path c cfg version ARCHIVE_SUFFIX) s
        rw [hdl] at hdle
        simp only [outState] at hdle
        have hs2 : s2.events.count Ev.backup = s.events.count Ev.backup := by
          simp [hdle, List.count_append, count_backup_download]
        cases e with
        | calledProcessError =>
            apply count_backup_andThen
            · have hdfe := download_file_events w (FileCache.remote_loc c cfg version "")
                (FileCache.cache_path c cfg version "") s2
              rw [hdfe]
              simp [List.count_append, count_backup_download, hs2]
            · intro s3
              rw [install_from_cache_events]
        | appError m => simpa [outState] using hs2
        | valueError m => simpa [outState] using hs2
        | assertionError m => simpa [outState] using hs2
        | configError m => simpa [outState] using hs2

/-- Demo state for the C10 publish half: the directory `d` exists, the
cache is initialized and holds no archive for it yet. -/
def stDemoPubMiss : St :=
  { fs := fun p =>
      if p = "d" then some Entry.dir
      else if p = "/r" then some Entry.dir else none
    events := []
    setup_done := true }

/-- C10: every `FileCache.install` run — cache hit or miss, success or
failure — performs no backup move (the installer is always invoked with
`make_backup=false`, so an existing target is removed outright when
`force` is set); by contrast, a directory publish does perform a backup
move when it reinstalls the cache entry over the local tree. -/
theorem install_never_backs_up :
    (∀ (w : World) (c : FileCache) (cfg : Config) (version : String) (force : Bool) (s : St),
        (outState (FileCache.install w c cfg version force s)).events.count Ev.backup
          = s.events.count Ev.backup)
    ∧ (outState (FileCache.publish wDemo fcDemo cfgDemoPub "1" false stDemoPubMiss)).events.count
        Ev.backup = stDemoPubMiss.events.count Ev.backup + 1 := by
  constructor
  · intro w c cfg version force s
    unfold FileCache.install
    rw [setup_is_ok c s]
    simp only [andThen]
    rw [installBody_no_backup]
    rw [setup_events]
  · decide

/-! ## Claim C9: the resolved version string -/

/-- Modelled from the spec: the ordered list of version components —
explicit version literal, then content hash of the hashable file, then
trimmed probe-command output — skipping components whose descriptor
field is absent or empty. -/
def versionBitsSpec (w : World) (cfg : Config) : List String :=
  (if truthy cfg.version then [cfg.version.getD ""] else [])
  ++ (if truthy cfg.version_hashable then [w.sha1 (cfg.version_hashable.getD "")] else [])
  ++ (if truthy cfg.version_command
      then [(w.probeOutput (cfg.version_command.getD "")).trim] else [])

/-- Demo descriptor for the C9 scenario: explicit version `1.2` plus a
hashable file (whose hash the demo world reports as `abcd1234`). -/
def cfgDemoC9 : Config :=
  { local_path := "f", remote_prefix_loc := "s3://b", remote_path := "r",
    copy_type := CopyType.symlink, upload_command := "u", download_command := "d",
    version := some "1.2", version_hashable := some "hf", version_command := none }

/-- C9: whenever the probe command (if configured) succeeds and its
trimmed output passes the version pattern, the resolved version string
is the separator-join of the components in the fixed order — explicit
literal, content hash, probe output — skipping absent or empty fields;
in particular explicit version `1.2` plus content hash `abcd1234` yields
`1.2-abcd1234`. -/
theorem version_for_concatenation (w : World) (cfg : Config)
    (hp : truthy cfg.version_command = true →
      (w.probeOk (cfg.version_command.getD "") = true
        ∧ versionOutputOk ((w.probeOutput (cfg.version_command.getD "")).trim) = true)) :
    version_for w cfg = Except.ok (String.intercalate "-" (versionBitsSpec w cfg))
    ∧ version_for wDemo cfgDemoC9 = Except.ok "1.2-abcd1234" := by
  constructor
  · unfold version_for versionBitsSpec
    by_cases hc : truthy cfg.version_command = true
    · rcases hp hc with ⟨hok, hre⟩
      simp [hc, hok, hre]
    · have hc2 : truthy cfg.version_command = false := by simpa using hc
      simp [hc2]
  · rfl

/-- Witness for C9 at the demo descriptor (no probe command, so the
probe hypothesis holds vacuously). -/
theorem version_for_concatenation_witness :
    version_for wDemo cfgDemoC9
        = Except.ok (String.intercalate "-" (versionBitsSpec wDemo cfgDemoC9))
    ∧ String.intercalate "-" (versionBitsSpec wDemo cfgDemoC9) = "1.2-abcd1234" :=
  ⟨(version_for_concatenation wDemo cfgDemoC9 (by decide)).1, by decide⟩

/-- Demo descriptor for the amended C1 layout at the spec scenario
prefix, with a well-formed (relative) local name. -/
def cfgDemoC1 : Config :=
  { local_path := "x", remote_prefix_loc := "s3://bucket/proj", remote_path := "proj",
    copy_type := CopyType.symlink, upload_command := "u", download_command := "d",
    version := some "3", version_hashable := none, version_command := none }

/-- Demo cache object rooted at `/cache`. -/
def fcDemoC1 : FileCache := FileCache.init "/cache"

/-- Witness for the amended C1 at a concrete well-formed descriptor. -/
theorem cache_path_layout_amended_witness :
    cfgDemoC1.local_path ≠ ""
    ∧ cfgDemoC1.remote_path ≠ ""
    ∧ FileCache.cache_path fcDemoC1 cfgDemoC1 "3" ""
      = "/cache/contents/s3/bucket/proj/proj/x.$3$/x" :=
  ⟨by decide, by decide,
    (cache_path_layout_amended fcDemoC1 cfgDemoC1 "3" "" (by decide) (by decide)
      (by decide) (by decide) (by decide) (by decide) (by decide) (by decide)
      (by decide) (by decide)).trans (by decide)⟩
